import Mathlib

/-!
Shallow embedding of the `gdrivetoolbox` Go repository
(packages `auth` and `deploy`) and verification of its specification.

HTTP I/O is modelled by passing the environment's responses explicitly:
each embedded function takes, alongside the source function's string
arguments, the outcome of every network call it may perform (transport
error with message, or a response with status and raw body, together with
the result of the stdlib JSON unmarshal of that body), and returns the
list of HTTP requests it issued together with its Go result
(`Except String α` mirrors Go's `(α, error)` with error messages built by
the same format strings as the source).
-/

namespace GDrive

/-- A decoded entry of the Drive `files` search result
(`struct { ID, Name, Description string }` in `deploy.go`). -/
structure DriveFile where
  id : String
  name : String
  description : String
deriving Repr, DecidableEq, Inhabited

/-- The decoded search response (`struct { Files []... }` in `deploy.go`). -/
structure FilesList where
  files : List DriveFile
deriving Repr, DecidableEq, Inhabited

/-- The decoded upload response (`struct { ID string }` in `deploy.go`). -/
structure UploadResult where
  id : String
deriving Repr, DecidableEq, Inhabited

/-- The decoded token response (`GoogleTokenResponse` in `auth.go`). -/
structure GoogleTokenResponse where
  accessToken : String
  expiresIn : Int
  tokenType : String
deriving Repr, DecidableEq, Inhabited

/-- An HTTP response as the Go code observes it: status code and raw body. -/
structure HttpResponse where
  status : Nat
  body : String
deriving Repr, DecidableEq, Inhabited

/-- An HTTP request as built by the Go code: method, full URL and the
headers/body the source sets (`Authorization`, `Content-Type`, request body). -/
structure HttpRequest where
  method : String
  url : String
  authorization : Option String := none
  contentType : Option String := none
  body : Option String := none
deriving Repr, DecidableEq, Inhabited

/-- Outcome of one `http.DefaultClient.Do` call: a transport-level error
carrying the Go error message, or a response.  `α` carries the result of
`json.Unmarshal` on the body where the source decodes it
(`Except String β`: decode error message, or the decoded value). -/
inductive NetOutcome (α : Type) where
  | transportErr (msg : String)
  | got (resp : HttpResponse) (dec : α)
deriving Repr, DecidableEq, Inhabited

/-- Result of `os.Stat` as `UploadFileToDrive` inspects it. -/
inductive StatResult where
  | statErr (msg : String)
  | statDir
  | statFile
deriving Repr, DecidableEq, Inhabited

/-! ### String helpers mirroring the Go standard library calls the source makes -/

/-- Uppercase hex digit, as `net/url` produces in percent-escapes. -/
def hexUpperDigit (n : Nat) : Char :=
  if n < 10 then Char.ofNat (48 + n) else Char.ofNat (55 + n)

/-- UTF-8 encoding of one character as byte values. -/
def charUTF8Bytes (c : Char) : List Nat :=
  let n := c.toNat
  if n < 0x80 then [n]
  else if n < 0x800 then [0xC0 + n / 64, 0x80 + n % 64]
  else if n < 0x10000 then [0xE0 + n / 4096, 0x80 + (n / 64) % 64, 0x80 + n % 64]
  else [0xF0 + n / 262144, 0x80 + (n / 4096) % 64, 0x80 + (n / 64) % 64, 0x80 + n % 64]

/-- Whether `url.QueryEscape` leaves a byte unescaped
(alphanumerics and `-`, `_`, `.`, `~`). -/
def queryUnreserved (b : Nat) : Bool :=
  (65 ≤ b && b ≤ 90) || (97 ≤ b && b ≤ 122) || (48 ≤ b && b ≤ 57) ||
    b == 45 || b == 95 || b == 46 || b == 126

/-- How `url.QueryEscape` renders one byte: kept, `+` for space, or `%XX`. -/
def queryEscapeByte (b : Nat) : String :=
  if queryUnreserved b then String.singleton (Char.ofNat b)
  else if b == 32 then "+"
  else "%" ++ String.singleton (hexUpperDigit (b / 16)) ++
    String.singleton (hexUpperDigit (b % 16))

/-- Go `url.QueryEscape`. -/
def goQueryEscape (s : String) : String :=
  String.join ((s.data.flatMap charUTF8Bytes).map queryEscapeByte)

/-- Escaping of one character inside a Go `encoding/json` marshalled string
(default HTML-escaping encoder). -/
def jsonEscapeChar (c : Char) : String :=
  if c = '"' then "\\\""
  else if c = '\\' then "\\\\"
  else if c = '<' then "\\u003c"
  else if c = '>' then "\\u003e"
  else if c = '&' then "\\u0026"
  else if c = '\n' then "\\n"
  else if c = '\r' then "\\r"
  else if c = '\t' then "\\t"
  else if c.toNat < 32 then
    "\\u00" ++ String.singleton (hexUpperDigit (c.toNat / 16)) ++
      String.singleton (hexUpperDigit (c.toNat % 16))
  else String.singleton c

/-- A Go `encoding/json` marshalled string literal, quotes included. -/
def goJSONString (s : String) : String :=
  "\"" ++ String.join (s.data.map jsonEscapeChar) ++ "\""

/-- Substring search on character lists, the model of Go
`bytes.Contains(hay, needle)` on UTF-8 text. -/
def listContainsSub (needle : List Char) : List Char → Bool
  | [] => needle.isEmpty
  | c :: rest => needle.isPrefixOf (c :: rest) || listContainsSub needle rest

/-- Go `bytes.Contains(hay, needle)` for string data. -/
def bytesContains (hay needle : String) : Bool :=
  listContainsSub needle.data hay.data

/-- Go `filepath.Join(a, b)` restricted to the shapes the source uses
(the `Clean` normalisation of the joined path is not modelled; the joined
path only appears inside an error message). -/
def goJoin2 (a b : String) : String :=
  if a = "" then b else a ++ "/" ++ b

/-- Go `filepath.Base`. -/
def goBase (path : String) : String :=
  if path = "" then "."
  else
    let trimmed := (path.data.reverse.dropWhile (fun c => c = '/')).reverse
    if trimmed.isEmpty then "/"
    else String.mk (trimmed.reverse.takeWhile (fun c => c ≠ '/')).reverse

/-- Go `filepath.Ext`: the suffix of the last path element starting at its
final dot, or `""` when the last element has no dot. -/
def goExt (path : String) : String :=
  let lastComp := (path.data.reverse.takeWhile (fun c => c ≠ '/')).reverse
  if lastComp.contains '.' then
    String.mk ('.' :: (lastComp.reverse.takeWhile (fun c => c ≠ '.')).reverse)
  else ""

/-! ### URLs and bodies built by the source -/

/-- The Drive search URL built by both `DeployPDF` and
`CheckRemoteVersionExists` via `fmt.Sprintf`. -/
def driveQueryURL (folderID encodedName : String) : String :=
  "https://www.googleapis.com/drive/v3/files?q='" ++ folderID ++
    "'+in+parents+and+name='" ++ encodedName ++
    "'+and+trashed=false&fields=files(id,name,description)"

/-- The per-file Drive URL `https://www.googleapis.com/drive/v3/files/<id>`. -/
def driveFileURL (id : String) : String :=
  "https://www.googleapis.com/drive/v3/files/" ++ id

/-- The move PATCH URL with `addParents`/`removeParents` query parameters. -/
def driveMoveURL (id addParents removeParents : String) : String :=
  driveFileURL id ++ "?addParents=" ++ addParents ++ "&removeParents=" ++
    removeParents ++ "&fields=id,parents"

/-- The Drive multipart upload endpoint. -/
def driveUploadURL : String :=
  "https://www.googleapis.com/upload/drive/v3/files?uploadType=multipart"

/-! ### auth.GetGoogleAccessToken -/

/-- The token request built by `GetGoogleAccessToken` (JSON body with the
map keys in Go's sorted marshal order). -/
def tokenRequest (clientID clientSecret refreshToken : String) : HttpRequest :=
  { method := "POST"
    url := "https://oauth2.googleapis.com/token"
    contentType := some "application/json"
    body := some ("\x7b\"client_id\":" ++ goJSONString clientID ++
      ",\"client_secret\":" ++ goJSONString clientSecret ++
      ",\"grant_type\":\"refresh_token\",\"refresh_token\":" ++
      goJSONString refreshToken ++ "\x7d") }

/-- Embeds `auth.GetGoogleAccessToken`: POSTs the refresh-token exchange and
extracts `access_token` from the decoded response. -/
def GetGoogleAccessToken (clientID clientSecret refreshToken : String)
    (net : NetOutcome (Except String GoogleTokenResponse)) :
    List HttpRequest × Except String String :=
  let req := tokenRequest clientID clientSecret refreshToken
  match net with
  | .transportErr e => ([req], .error e)
  | .got _ (.error e) => ([req], .error ("failed to decode token response: " ++ e))
  | .got _ (.ok tokenResp) =>
    if tokenResp.accessToken = "" then ([req], .error "no access_token in response")
    else ([req], .ok tokenResp.accessToken)

/-! ### deploy.CheckRemoteVersionExists -/

/-- The authenticated search GET request both query sites build. -/
def searchRequest (accessToken folderID pdfFile : String) : HttpRequest :=
  { method := "GET"
    url := driveQueryURL folderID (goQueryEscape pdfFile)
    authorization := some ("Bearer " ++ accessToken) }

/-- Embeds `deploy.CheckRemoteVersionExists`: validates inputs, issues the
search GET, and reports whether the first decoded file's description equals
`versionSafe`. -/
def CheckRemoteVersionExists (accessToken fileName folderID versionSafe : String)
    (net : NetOutcome (Except String FilesList)) :
    List HttpRequest × Except String Bool :=
  if accessToken = "" then ([], .error "ACCESS_TOKEN is not set")
  else if fileName = "" ∨ folderID = "" ∨ versionSafe = "" then
    ([], .error "missing required variable(s): FileName, FolderID, VersionSafe")
  else
    let pdfFile := fileName ++ ".pdf"
    let req := searchRequest accessToken folderID pdfFile
    match net with
    | .transportErr e => ([req], .error e)
    | .got _ (.error e) => ([req], .error e)
    | .got _ (.ok result) =>
      match result.files with
      | [] => ([req], .ok false)
      | f :: _ =>
        if f.description = versionSafe then ([req], .ok true)
        else ([req], .ok false)

/-! ### deploy.DeployPDF -/

/-- The environment of one `DeployPDF` run: the `os.Stat` result for the
local PDF, the bytes `io.Copy` reads from it, the boundary the fresh
`multipart.Writer` chose, and the outcome of each network call the linear
workflow may perform, in program order.  The sharing-restriction PATCH's
outcome has no field because the source discards `http.DefaultClient.Do`'s
entire result there. -/
structure DeployWorld where
  fileExists : Bool
  pdfBytes : String
  boundary : String
  searchResp : NetOutcome (Except String FilesList)
  renameResp : NetOutcome Unit
  archiveMoveResp : NetOutcome Unit
  deleteResp : NetOutcome Unit
  uploadResp : NetOutcome (Except String UploadResult)
  moveFinalResp : NetOutcome Unit

/-- The rename PATCH body `{"name": "<renamedFile>"}` built by
`fmt.Sprintf` (no JSON escaping in the source). -/
def renameBody (renamedFile : String) : String :=
  "\x7b\"name\": \"" ++ renamedFile ++ "\"\x7d"

/-- The archived name: `fileName + "-" + existingFileDesc` with `"unknown"`
substituted for an empty or `"null"` description, then `".pdf"`. -/
def archivedName (fileName existingFileDesc : String) : String :=
  (if existingFileDesc = "" ∨ existingFileDesc = "null" then
    fileName ++ "-unknown"
  else fileName ++ "-" ++ existingFileDesc) ++ ".pdf"

/-- The rename PATCH request of the archive branch. -/
def renameRequest (accessToken fileName existingFileID existingFileDesc : String) :
    HttpRequest :=
  { method := "PATCH"
    url := driveFileURL existingFileID
    authorization := some ("Bearer " ++ accessToken)
    contentType := some "application/json"
    body := some (renameBody (archivedName fileName existingFileDesc)) }

/-- The move-to-archive PATCH request of the archive branch. -/
def archiveMoveRequest (accessToken existingFileID oldFolderID folderID : String) :
    HttpRequest :=
  { method := "PATCH"
    url := driveMoveURL existingFileID oldFolderID folderID
    authorization := some ("Bearer " ++ accessToken) }

/-- Archive branch of `DeployPDF`: rename then move the existing file;
only a transport-level error from either call yields an error, the
responses themselves are closed unread. -/
def deployArchivePhase (accessToken fileName existingFileID existingFileDesc
    oldFolderID folderID : String) (w : DeployWorld) :
    List HttpRequest × Option String :=
  let renameReq := renameRequest accessToken fileName existingFileID existingFileDesc
  let rest : List HttpRequest × Option String :=
    match w.renameResp with
    | .transportErr e => ([], some ("failed to rename existing file: " ++ e))
    | .got _ _ =>
      let moveReq := archiveMoveRequest accessToken existingFileID oldFolderID folderID
      match w.archiveMoveResp with
      | .transportErr e => ([moveReq], some ("failed to move old file to archive: " ++ e))
      | .got _ _ => ([moveReq], none)
  (renameReq :: rest.1, rest.2)

/-- The DELETE request of the destructive branch. -/
def deleteRequest (accessToken existingFileID : String) : HttpRequest :=
  { method := "DELETE"
    url := driveFileURL existingFileID
    authorization := some ("Bearer " ++ accessToken) }

/-- Destructive branch of `DeployPDF`: DELETE the existing file; any status
other than 204 or 200 is an error carrying status and body. -/
def deployDeletePhase (accessToken existingFileID : String) (w : DeployWorld) :
    List HttpRequest × Option String :=
  let delReq := deleteRequest accessToken existingFileID
  let rest : Option String :=
    match w.deleteResp with
    | .transportErr e => some ("failed to delete existing file: " ++ e)
    | .got resp _ =>
      if resp.status ≠ 204 ∧ resp.status ≠ 200 then
        some ("failed to delete existing file: status " ++ toString resp.status ++
          ": " ++ resp.body)
      else none
  ([delReq], rest)

/-- The upload metadata `json.Marshal` output (map keys in Go's sorted
marshal order: description, name, parents). -/
def deployMetadataJSON (pdfFile tempFolderID versionSafe : String) : String :=
  "\x7b\"description\":" ++ goJSONString versionSafe ++ ",\"name\":" ++
    goJSONString pdfFile ++ ",\"parents\":[" ++ goJSONString tempFolderID ++ "]\x7d"

/-- The two-part `multipart` body `DeployPDF` builds: a JSON metadata part
and an `application/pdf` part, closed with the final boundary. -/
def deployMultipartBody (boundary metadataJSON pdfBytes : String) : String :=
  "--" ++ boundary ++ "\r\nContent-Type: application/json; charset=UTF-8\r\n\r\n" ++
    metadataJSON ++
    "\r\n--" ++ boundary ++ "\r\nContent-Type: application/pdf\r\n\r\n" ++ pdfBytes ++
    "\r\n--" ++ boundary ++ "--\r\n"

/-- The upload POST request of `DeployPDF`.  Its Content-Type comes from
`writer.FormDataContentType()`, i.e. `multipart/form-data; boundary=...`. -/
def deployUploadRequest (accessToken pdfFile versionSafe tempFolderID : String)
    (w : DeployWorld) : HttpRequest :=
  { method := "POST"
    url := driveUploadURL
    authorization := some ("Bearer " ++ accessToken)
    contentType := some ("multipart/form-data; boundary=" ++ w.boundary)
    body := some (deployMultipartBody w.boundary
      (deployMetadataJSON pdfFile tempFolderID versionSafe) w.pdfBytes) }

/-- The sharing-restriction PATCH request (result ignored by the source). -/
def permsRequest (accessToken newFileID : String) : HttpRequest :=
  { method := "PATCH"
    url := driveFileURL newFileID
    authorization := some ("Bearer " ++ accessToken)
    contentType := some "application/json"
    body := some "\x7b\"copyRequiresWriterPermission\": true, \"writersCanShare\": false\x7d" }

/-- The final move PATCH request of `DeployPDF`. -/
def moveFinalRequest (accessToken newFileID folderID tempFolderID : String) :
    HttpRequest :=
  { method := "PATCH"
    url := driveMoveURL newFileID folderID tempFolderID
    authorization := some ("Bearer " ++ accessToken) }

/-- Upload-and-move tail of `DeployPDF`: multipart POST (status unchecked;
an unmarshal error or empty decoded id is an error carrying the raw body),
fire-and-forget permissions PATCH, then the final move PATCH whose success
test is `bytes.Contains(body, []byte("\x7b...id...\x7d"))` on the raw body. -/
def deployUploadPhase (accessToken pdfFile versionSafe tempFolderID folderID : String)
    (w : DeployWorld) : List HttpRequest × Except String Unit :=
  let uploadReq := deployUploadRequest accessToken pdfFile versionSafe tempFolderID w
  let rest : List HttpRequest × Except String Unit :=
    match w.uploadResp with
    | .transportErr e => ([], .error ("upload failed: " ++ e))
    | .got resp (.error _) => ([], .error ("upload failed: " ++ resp.body))
    | .got resp (.ok uploadResult) =>
      if uploadResult.id = "" then ([], .error ("upload failed: " ++ resp.body))
      else
        let newFileID := uploadResult.id
        let permsReq := permsRequest accessToken newFileID
        let moveReq := moveFinalRequest accessToken newFileID folderID tempFolderID
        let tail : List HttpRequest × Except String Unit :=
          match w.moveFinalResp with
          | .transportErr e => ([moveReq], .error ("move to final folder failed: " ++ e))
          | .got moveResp _ =>
            if bytesContains moveResp.body "\"id\"" then ([moveReq], .ok ())
            else ([moveReq],
              .error ("upload succeeded, but move failed: " ++ moveResp.body))
        (permsReq :: tail.1, tail.2)
  (uploadReq :: rest.1, rest.2)

/-- The non-skip continuation of `DeployPDF` (steps 4-9): archive or delete
an existing file as the branch conditions dictate, then upload and move. -/
def deployAfterSkip (accessToken fileName versionSafe tempFolderID folderID
    oldFolderID : String) (existingFileID existingFileDesc : String)
    (searchReq : HttpRequest) (w : DeployWorld) :
    List HttpRequest × Except String Unit :=
  let branch : List HttpRequest × Option String :=
    if existingFileID ≠ "" ∧ oldFolderID ≠ "" then
      deployArchivePhase accessToken fileName existingFileID existingFileDesc
        oldFolderID folderID w
    else if existingFileID ≠ "" then
      deployDeletePhase accessToken existingFileID w
    else ([], none)
  match branch.2 with
  | some e => (searchReq :: branch.1, .error e)
  | none =>
    let tail := deployUploadPhase accessToken (fileName ++ ".pdf") versionSafe
      tempFolderID folderID w
    (searchReq :: (branch.1 ++ tail.1), tail.2)

/-- Embeds `deploy.DeployPDF`: validation, search, skip/archive/delete
branches, multipart upload, best-effort permissions PATCH, final move. -/
def DeployPDF (accessToken fileName versionSafe tempFolderID folderID
    oldFolderID sopDir : String) (w : DeployWorld) :
    List HttpRequest × Except String Unit :=
  if fileName = "" ∨ accessToken = "" ∨ tempFolderID = "" ∨ folderID = "" then
    ([], .error "missing required variable(s): fileName, accessToken, tempFolderID, folderID")
  else
    let pdfFile := fileName ++ ".pdf"
    let pdfPath := goJoin2 sopDir pdfFile
    if ¬ w.fileExists then ([], .error ("PDF '" ++ pdfPath ++ "' not found"))
    else if versionSafe = "" then
      ([], .error "version-safe.txt missing or empty, or VERSION_SUFFIX not set")
    else
      let searchReq := searchRequest accessToken folderID pdfFile
      match w.searchResp with
      | .transportErr e => ([searchReq], .error e)
      | .got _ (.error e) => ([searchReq], .error e)
      | .got _ (.ok result) =>
        let existingFileID :=
          match result.files with
          | f :: _ => f.id
          | [] => ""
        let existingFileDesc :=
          match result.files with
          | f :: _ => f.description
          | [] => ""
        if existingFileID ≠ "" ∧ existingFileDesc = versionSafe then
          ([searchReq], .ok ())
        else
          deployAfterSkip accessToken fileName versionSafe tempFolderID folderID
            oldFolderID existingFileID existingFileDesc searchReq w

/-! ### deploy.UploadFileToDrive -/

/-- The standalone uploader's metadata `json.Marshal` output
(map keys sorted: name, parents). -/
def uploaderMetadataJSON (fileName folderID : String) : String :=
  "\x7b\"name\":" ++ goJSONString fileName ++ ",\"parents\":[" ++
    goJSONString folderID ++ "]\x7d"

/-- The standalone uploader's two-part multipart body; the file part carries
a `Content-Disposition` and the extension-derived Content-Type (multipart
header keys in Go's sorted order). -/
def uploaderMultipartBody (boundary metaJSON ctype fileName fileBytes : String) :
    String :=
  "--" ++ boundary ++ "\r\nContent-Type: application/json; charset=UTF-8\r\n\r\n" ++
    metaJSON ++
    "\r\n--" ++ boundary ++
    "\r\nContent-Disposition: form-data; name=\"file\"; filename=\"" ++ fileName ++
    "\"\r\nContent-Type: " ++ ctype ++ "\r\n\r\n" ++ fileBytes ++
    "\r\n--" ++ boundary ++ "--\r\n"

/-- The environment of one `UploadFileToDrive` call: the `os.Stat` result,
the file bytes, `mime.TypeByExtension`'s answer for the file's extension
(an OS-dependent table lookup), the writer's boundary, and the upload
POST's outcome. -/
structure UploadWorld where
  stat : StatResult
  fileBytes : String
  mimeByExt : String
  boundary : String
  uploadResp : NetOutcome (Except String UploadResult)

/-- The standalone upload POST request; its Content-Type is the literal
`multipart/related; boundary=<writer boundary>`. -/
def uploaderRequest (accessToken folderID filePath : String) (w : UploadWorld) :
    HttpRequest :=
  let fileName := goBase filePath
  let ctype := if w.mimeByExt = "" then "application/octet-stream" else w.mimeByExt
  { method := "POST"
    url := driveUploadURL
    authorization := some ("Bearer " ++ accessToken)
    contentType := some ("multipart/related; boundary=" ++ w.boundary)
    body := some (uploaderMultipartBody w.boundary
      (uploaderMetadataJSON fileName folderID) ctype fileName w.fileBytes) }

/-- Embeds `deploy.UploadFileToDrive`: validation and stat checks before any
request, multipart POST, status gate on [200,300), then id extraction. -/
def UploadFileToDrive (accessToken folderID filePath : String) (w : UploadWorld) :
    List HttpRequest × Except String String :=
  if accessToken = "" then ([], .error "accessToken is required")
  else if folderID = "" then ([], .error "folderID is required")
  else if filePath = "" then ([], .error "filePath is required")
  else
    match w.stat with
    | .statErr e => ([], .error ("stat file: " ++ e))
    | .statDir => ([], .error "filePath is a directory")
    | .statFile =>
      let req := uploaderRequest accessToken folderID filePath w
      match w.uploadResp with
      | .transportErr e => ([req], .error ("upload request failed: " ++ e))
      | .got resp dec =>
        if resp.status < 200 ∨ resp.status ≥ 300 then
          ([req], .error ("upload failed: status " ++ toString resp.status ++
            ": " ++ resp.body))
        else
          match dec with
          | .error e => ([req], .error ("decode upload response: " ++ e))
          | .ok result =>
            if result.id = "" then
              ([req], .error ("upload succeeded but returned empty id: " ++ resp.body))
            else ([req], .ok result.id)

/-! ## Theorems -/

/-- C1: for every decoded query response, `CheckRemoteVersionExists` returns
`(true, nil)` iff the decoded files list is non-empty and the first entry's
description equals `versionSafe` by exact string equality, and `(false, nil)`
in every other non-error case. -/
theorem C1_check_remote_version_exists_iff
    (tok fn fid v : String) (resp : HttpResponse) (files : List DriveFile)
    (htok : tok ≠ "") (hfn : fn ≠ "") (hfid : fid ≠ "") (hv : v ≠ "") :
    ((CheckRemoteVersionExists tok fn fid v (.got resp (.ok ⟨files⟩))).2 = .ok true
        ↔ files ≠ [] ∧ (files.headD default).description = v) ∧
    ((CheckRemoteVersionExists tok fn fid v (.got resp (.ok ⟨files⟩))).2 = .ok false
        ↔ ¬ (files ≠ [] ∧ (files.headD default).description = v)) := by
  unfold CheckRemoteVersionExists
  rw [if_neg htok, if_neg (by simp [hfn, hfid, hv])]
  cases files with
  | nil => simp
  | cons f rest =>
    by_cases hd : f.description = v
    · simp [hd]
    · simp [hd]

/-- Witness for C1 at a concrete matching response. -/
theorem C1_check_remote_version_exists_iff_witness :
    ((CheckRemoteVersionExists "t" "doc" "F" "v1"
        (.got ⟨200, ""⟩ (.ok ⟨[⟨"i", "doc.pdf", "v1"⟩]⟩))).2 = .ok true
      ↔ ([⟨"i", "doc.pdf", "v1"⟩] : List DriveFile) ≠ [] ∧
        (([⟨"i", "doc.pdf", "v1"⟩] : List DriveFile).headD default).description = "v1") ∧
    ((CheckRemoteVersionExists "t" "doc" "F" "v1"
        (.got ⟨200, ""⟩ (.ok ⟨[⟨"i", "doc.pdf", "v1"⟩]⟩))).2 = .ok false
      ↔ ¬ (([⟨"i", "doc.pdf", "v1"⟩] : List DriveFile) ≠ [] ∧
        (([⟨"i", "doc.pdf", "v1"⟩] : List DriveFile).headD default).description = "v1")) :=
  C1_check_remote_version_exists_iff "t" "doc" "F" "v1" ⟨200, ""⟩
    [⟨"i", "doc.pdf", "v1"⟩] (by decide) (by decide) (by decide) (by decide)

/-- C6: for every well-formed decoded token response, `GetGoogleAccessToken`
returns the `access_token` string exactly and no error iff the field is
non-empty (a missing field decodes to the zero value `""`), and the
"no access_token" error iff it is empty; the `Except` result never carries
both a token and an error. -/
theorem C6_get_google_access_token
    (cid cs rt : String) (resp : HttpResponse) (t : GoogleTokenResponse) :
    ((GetGoogleAccessToken cid cs rt (.got resp (.ok t))).2 = .ok t.accessToken
        ↔ t.accessToken ≠ "") ∧
    ((GetGoogleAccessToken cid cs rt (.got resp (.ok t))).2
        = .error "no access_token in response" ↔ t.accessToken = "") := by
  unfold GetGoogleAccessToken
  by_cases h : t.accessToken = ""
  · simp [h]
  · simp [h]

/-- C9: `UploadFileToDrive` with an empty accessToken, folderID or filePath,
or a filePath whose stat names a directory, returns an error having issued
no HTTP request. -/
theorem C9_upload_validates_before_network
    (tok fid fp : String) (w : UploadWorld)
    (h : tok = "" ∨ fid = "" ∨ fp = "" ∨ w.stat = .statDir) :
    (UploadFileToDrive tok fid fp w).1 = [] ∧
      ∃ e, (UploadFileToDrive tok fid fp w).2 = .error e := by
  unfold UploadFileToDrive
  by_cases h1 : tok = ""
  · simp [h1]
  · by_cases h2 : fid = ""
    · simp [h1, h2]
    · by_cases h3 : fp = ""
      · simp [h1, h2, h3]
      · have hd : w.stat = .statDir := by tauto
        simp [h1, h2, h3, hd]

/-- Witness for C9: empty accessToken with an otherwise healthy world. -/
theorem C9_upload_validates_before_network_witness :
    (UploadFileToDrive "" "folder" "/tmp/f.pdf"
        ⟨.statFile, "DATA", "application/pdf", "b",
          .got ⟨200, "\x7b\"id\":\"x\"\x7d"⟩ (.ok ⟨"x"⟩)⟩).1 = [] ∧
      ∃ e, (UploadFileToDrive "" "folder" "/tmp/f.pdf"
        ⟨.statFile, "DATA", "application/pdf", "b",
          .got ⟨200, "\x7b\"id\":\"x\"\x7d"⟩ (.ok ⟨"x"⟩)⟩).2 = .error e :=
  C9_upload_validates_before_network "" "folder" "/tmp/f.pdf" _ (Or.inl rfl)

/-- A fully successful no-existing-file deployment environment. -/
def freshDeployWorld : DeployWorld :=
  { fileExists := true, pdfBytes := "PDF", boundary := "b"
    searchResp := .got ⟨200, "\x7b\"files\": []\x7d"⟩ (.ok ⟨[]⟩)
    renameResp := .got ⟨200, ""⟩ ()
    archiveMoveResp := .got ⟨200, ""⟩ ()
    deleteResp := .got ⟨204, ""⟩ ()
    uploadResp := .got ⟨200, "\x7b\"id\":\"new-file-id\"\x7d"⟩ (.ok ⟨"new-file-id"⟩)
    moveFinalResp := .got ⟨200, "\x7b\"id\":\"new-file-id\",\"parents\":[\"final\"]\x7d"⟩ () }

/-- C2 counterexample: a successful no-existing-file `DeployPDF` run issues
four HTTP requests (GET, POST, and two PATCHes — the sharing-restriction
PATCH precedes the move PATCH), not three. -/
theorem C2_counterexample_four_requests :
    (DeployPDF "tok" "mydoc" "v1" "temp" "final" "old" "td" freshDeployWorld).2
        = .ok () ∧
    (DeployPDF "tok" "mydoc" "v1" "temp" "final" "old" "td" freshDeployWorld).1.length
        = 4 ∧
    (DeployPDF "tok" "mydoc" "v1" "temp" "final" "old" "td"
        freshDeployWorld).1.map HttpRequest.method
        = ["GET", "POST", "PATCH", "PATCH"] :=
  ⟨rfl, rfl, rfl⟩

/-- C2 amended: every successful `DeployPDF` run whose search returns no
existing file issues exactly four requests — GET (search), POST (upload),
PATCH (sharing restrictions), PATCH (move) — in that order, and returns
nil. -/
theorem C2_amended_fresh_deploy_sequence
    (accessToken fileName versionSafe tempFolderID folderID oldFolderID
      sopDir : String) (w : DeployWorld)
    (sresp uresp mresp : HttpResponse) (uid : String)
    (h1 : fileName ≠ "") (h2 : accessToken ≠ "") (h3 : tempFolderID ≠ "")
    (h4 : folderID ≠ "") (h5 : versionSafe ≠ "") (hfe : w.fileExists = true)
    (hs : w.searchResp = .got sresp (.ok ⟨[]⟩))
    (hu : w.uploadResp = .got uresp (.ok ⟨uid⟩)) (huid : uid ≠ "")
    (hm : w.moveFinalResp = .got mresp ())
    (hbody : bytesContains mresp.body "\"id\"" = true) :
    (DeployPDF accessToken fileName versionSafe tempFolderID folderID oldFolderID
        sopDir w).1
      = [searchRequest accessToken folderID (fileName ++ ".pdf"),
         deployUploadRequest accessToken (fileName ++ ".pdf") versionSafe
           tempFolderID w,
         permsRequest accessToken uid,
         moveFinalRequest accessToken uid folderID tempFolderID] ∧
    (DeployPDF accessToken fileName versionSafe tempFolderID folderID oldFolderID
        sopDir w).2 = .ok () ∧
    (DeployPDF accessToken fileName versionSafe tempFolderID folderID oldFolderID
        sopDir w).1.map HttpRequest.method = ["GET", "POST", "PATCH", "PATCH"] := by
  unfold DeployPDF deployAfterSkip deployUploadPhase
  rw [if_neg (by simp [h1, h2, h3, h4]), if_neg (by simp [hfe]),
    if_neg h5, hs, hu, hm]
  simp [huid, hbody, searchRequest, deployUploadRequest, permsRequest,
    moveFinalRequest]

/-- Witness for the amended C2 at the concrete fresh-deploy environment. -/
theorem C2_amended_fresh_deploy_sequence_witness :
    (DeployPDF "tok" "mydoc" "v1" "temp" "final" "old" "td" freshDeployWorld).1
      = [searchRequest "tok" "final" ("mydoc" ++ ".pdf"),
         deployUploadRequest "tok" ("mydoc" ++ ".pdf") "v1" "temp" freshDeployWorld,
         permsRequest "tok" "new-file-id",
         moveFinalRequest "tok" "new-file-id" "final" "temp"] ∧
    (DeployPDF "tok" "mydoc" "v1" "temp" "final" "old" "td" freshDeployWorld).2
      = .ok () ∧
    (DeployPDF "tok" "mydoc" "v1" "temp" "final" "old" "td"
        freshDeployWorld).1.map HttpRequest.method
      = ["GET", "POST", "PATCH", "PATCH"] :=
  C2_amended_fresh_deploy_sequence "tok" "mydoc" "v1" "temp" "final" "old" "td"
    freshDeployWorld ⟨200, "\x7b\"files\": []\x7d"⟩ ⟨200, "\x7b\"id\":\"new-file-id\"\x7d"⟩
    ⟨200, "\x7b\"id\":\"new-file-id\",\"parents\":[\"final\"]\x7d"⟩ "new-file-id"
    (by decide) (by decide) (by decide) (by decide) (by decide) rfl rfl rfl
    (by decide) rfl (by decide)

/-- A fresh-deploy environment whose upload POST answers with HTTP 500 yet a
well-formed `{"id":"x"}` body. -/
def badStatusUploadWorld : DeployWorld :=
  { freshDeployWorld with uploadResp := .got ⟨500, "\x7b\"id\":\"x\"\x7d"⟩ (.ok ⟨"x"⟩) }

/-- C3 counterexample: inside `DeployPDF`, an upload response with status 500
(outside [200,299)) and a decodable id produces no error at all — the whole
run succeeds — so the upload phase of `DeployPDF` does not return a
status-carrying error on non-2xx responses. -/
theorem C3_counterexample_deploy_ignores_upload_status :
    badStatusUploadWorld.uploadResp
        = .got ⟨500, "\x7b\"id\":\"x\"\x7d"⟩ (.ok ⟨"x"⟩) ∧
    (DeployPDF "tok" "doc" "v1" "temp" "final" "old" "d"
        badStatusUploadWorld).2 = .ok () :=
  ⟨rfl, rfl⟩

/-- Two strings whose character data differ at some position are unequal. -/
lemma string_ne_of_getElem (i : Nat) (c d : Char) (s t : String)
    (hs : s.data[i]? = some c) (ht : t.data[i]? = some d) (hcd : c ≠ d) :
    s ≠ t :=
  fun he => hcd (Option.some.inj ((he ▸ hs).symm.trans ht))

/-- C3 amended: the standalone `UploadFileToDrive` returns, for every
response with status outside [200,299), an error carrying the status code
and the raw body; the upload phase inside `DeployPDF` never inspects the
status — for a response with any status whatsoever it errors exactly when
the body fails to unmarshal or decodes to an empty id (both errors carrying
only the raw body), and for a decodable non-empty id it never produces an
upload-phase error. -/
theorem C3_amended_upload_error_payload
    (tok fid fp : String) (uw : UploadWorld) (resp : HttpResponse)
    (udec : Except String UploadResult)
    (h1 : tok ≠ "") (h2 : fid ≠ "") (h3 : fp ≠ "") (hst : uw.stat = .statFile)
    (hnet : uw.uploadResp = .got resp udec)
    (hbad : resp.status < 200 ∨ resp.status ≥ 300)
    (accessToken fileName versionSafe tempFolderID folderID oldFolderID
      sopDir : String)
    (w : DeployWorld) (sresp uresp : HttpResponse)
    (dec : Except String UploadResult)
    (g1 : fileName ≠ "") (g2 : accessToken ≠ "") (g3 : tempFolderID ≠ "")
    (g4 : folderID ≠ "") (g5 : versionSafe ≠ "") (gfe : w.fileExists = true)
    (gs : w.searchResp = .got sresp (.ok ⟨[]⟩))
    (gu : w.uploadResp = .got uresp dec) :
    (UploadFileToDrive tok fid fp uw).2 =
      .error ("upload failed: status " ++ toString resp.status ++ ": " ++
        resp.body) ∧
    (∀ derr, dec = .error derr →
      (DeployPDF accessToken fileName versionSafe tempFolderID folderID
        oldFolderID sopDir w).2 = .error ("upload failed: " ++ uresp.body)) ∧
    (dec = .ok ⟨""⟩ →
      (DeployPDF accessToken fileName versionSafe tempFolderID folderID
        oldFolderID sopDir w).2 = .error ("upload failed: " ++ uresp.body)) ∧
    (∀ uid, dec = .ok ⟨uid⟩ → uid ≠ "" →
      ∀ b, (DeployPDF accessToken fileName versionSafe tempFolderID folderID
        oldFolderID sopDir w).2 ≠ .error ("upload failed: " ++ b)) := by
  refine ⟨?_, ?_, ?_, ?_⟩
  · unfold UploadFileToDrive
    rw [if_neg h1, if_neg h2, if_neg h3, hst, hnet]
    simp only [if_pos hbad]
  · intro derr hdec
    subst hdec
    unfold DeployPDF deployAfterSkip deployUploadPhase
    rw [if_neg (by simp [g1, g2, g3, g4]), if_neg (by simp [gfe]),
      if_neg g5, gs, gu]
    simp
  · intro hdec
    subst hdec
    unfold DeployPDF deployAfterSkip deployUploadPhase
    rw [if_neg (by simp [g1, g2, g3, g4]), if_neg (by simp [gfe]),
      if_neg g5, gs, gu]
    simp
  · intro uid hdec huid b
    subst hdec
    unfold DeployPDF deployAfterSkip deployUploadPhase
    rw [if_neg (by simp [g1, g2, g3, g4]), if_neg (by simp [gfe]),
      if_neg g5, gs, gu]
    cases hm : w.moveFinalResp with
    | transportErr e =>
      simp [huid, hm]
      exact string_ne_of_getElem 0 'm' 'u'
        ("move to final folder failed: " ++ e) ("upload failed: " ++ b)
        rfl rfl (by decide)
    | got mresp u =>
      by_cases hb : bytesContains mresp.body "\"id\"" = true
      · simp [huid, hm, hb]
      · simp only [Bool.not_eq_true] at hb
        simp [huid, hm, hb]
        exact string_ne_of_getElem 7 's' 'f'
          ("upload succeeded, but move failed: " ++ mresp.body)
          ("upload failed: " ++ b) rfl rfl (by decide)

/-- Witness for the amended C3: status 404 in the standalone uploader and a
non-decoding 200 body inside `DeployPDF`. -/
theorem C3_amended_upload_error_payload_witness :
    (UploadFileToDrive "tok" "folder" "/tmp/f.pdf"
        ⟨.statFile, "D", "application/pdf", "b",
          .got ⟨404, "not found"⟩ (.error "x")⟩).2 =
      .error ("upload failed: status " ++ toString (404 : Nat) ++ ": " ++
        "not found") ∧
    (∀ derr, (Except.error "invalid character" : Except String UploadResult)
        = .error derr →
      (DeployPDF "tok" "doc" "v1" "temp" "final" "old" "d"
          { freshDeployWorld with
              uploadResp := .got ⟨200, "<html>"⟩ (.error "invalid character") }).2
        = .error ("upload failed: " ++
            HttpResponse.body ⟨200, "<html>"⟩)) ∧
    ((Except.error "invalid character" : Except String UploadResult)
        = .ok ⟨""⟩ →
      (DeployPDF "tok" "doc" "v1" "temp" "final" "old" "d"
          { freshDeployWorld with
              uploadResp := .got ⟨200, "<html>"⟩ (.error "invalid character") }).2
        = .error ("upload failed: " ++
            HttpResponse.body ⟨200, "<html>"⟩)) ∧
    (∀ uid, (Except.error "invalid character" : Except String UploadResult)
        = .ok ⟨uid⟩ → uid ≠ "" →
      ∀ b, (DeployPDF "tok" "doc" "v1" "temp" "final" "old" "d"
          { freshDeployWorld with
              uploadResp := .got ⟨200, "<html>"⟩ (.error "invalid character") }).2
        ≠ .error ("upload failed: " ++ b)) :=
  C3_amended_upload_error_payload "tok" "folder" "/tmp/f.pdf"
    ⟨.statFile, "D", "application/pdf", "b", .got ⟨404, "not found"⟩ (.error "x")⟩
    ⟨404, "not found"⟩ (.error "x")
    (by decide) (by decide) (by decide) rfl rfl (by decide)
    "tok" "doc" "v1" "temp" "final" "old" "d"
    { freshDeployWorld with
        uploadResp := .got ⟨200, "<html>"⟩ (.error "invalid character") }
    ⟨200, "\x7b\"files\": []\x7d"⟩ ⟨200, "<html>"⟩ (.error "invalid character")
    (by decide) (by decide) (by decide) (by decide) (by decide) rfl rfl rfl

/-- C4: the upload POST inside `DeployPDF` is sent with Content-Type
`multipart/form-data; boundary=<writer boundary>` (from
`writer.FormDataContentType()`), not the `multipart/related` the code's own
comment and the spec state; the standalone `UploadFileToDrive` does send
`multipart/related; boundary=<writer boundary>`. -/
theorem C4_deploy_upload_content_type_bug :
    ((DeployPDF "tok" "doc" "v1" "temp" "final" "old" "d"
          freshDeployWorld).1[1]?).map HttpRequest.contentType
      = some (some ("multipart/form-data; boundary=" ++
          freshDeployWorld.boundary)) ∧
    ("multipart/form-data; boundary=" ++ freshDeployWorld.boundary) ≠
      ("multipart/related; boundary=" ++ freshDeployWorld.boundary) ∧
    (UploadFileToDrive "tok" "folder" "/tmp/f.pdf"
        ⟨.statFile, "D", "application/pdf", "b",
          .got ⟨200, "\x7b\"id\":\"x\"\x7d"⟩ (.ok ⟨"x"⟩)⟩).1.map
        HttpRequest.contentType
      = [some ("multipart/related; boundary=" ++ "b")] :=
  ⟨rfl, by decide, rfl⟩

/-- C7: once `DeployPDF` reaches the final move PATCH, the run succeeds iff
the raw move response body contains the literal substring `"id"` (quotes
included), and returns the move-failure error iff it does not — the response
status is never consulted in either direction. -/
theorem C7_move_checked_by_id_substring
    (accessToken fileName versionSafe tempFolderID folderID oldFolderID
      sopDir : String)
    (w : DeployWorld) (sresp uresp mresp : HttpResponse) (uid : String)
    (h1 : fileName ≠ "") (h2 : accessToken ≠ "") (h3 : tempFolderID ≠ "")
    (h4 : folderID ≠ "") (h5 : versionSafe ≠ "") (hfe : w.fileExists = true)
    (hs : w.searchResp = .got sresp (.ok ⟨[]⟩))
    (hu : w.uploadResp = .got uresp (.ok ⟨uid⟩)) (huid : uid ≠ "")
    (hm : w.moveFinalResp = .got mresp ()) :
    ((DeployPDF accessToken fileName versionSafe tempFolderID folderID
          oldFolderID sopDir w).2 = .ok ()
        ↔ bytesContains mresp.body "\"id\"" = true) ∧
    ((DeployPDF accessToken fileName versionSafe tempFolderID folderID
          oldFolderID sopDir w).2
        = .error ("upload succeeded, but move failed: " ++ mresp.body)
        ↔ bytesContains mresp.body "\"id\"" = false) := by
  unfold DeployPDF deployAfterSkip deployUploadPhase
  rw [if_neg (by simp [h1, h2, h3, h4]), if_neg (by simp [hfe]),
    if_neg h5, hs, hu, hm]
  by_cases hb : bytesContains mresp.body "\"id\"" = true
  · simp [huid, hb]
  · simp only [Bool.not_eq_true] at hb
    simp [huid, hb]

/-- Witness for C7: a 2xx move response without `"id"` fails the run; the
body here is `{"error":1}` with status 200. -/
theorem C7_move_checked_by_id_substring_witness :
    ((DeployPDF "tok" "doc" "v1" "temp" "final" "old" "d"
          { freshDeployWorld with moveFinalResp := .got ⟨200, "\x7b\"error\":1\x7d"⟩ () }).2
        = .ok ()
      ↔ bytesContains (HttpResponse.body ⟨200, "\x7b\"error\":1\x7d"⟩) "\"id\"" = true) ∧
    ((DeployPDF "tok" "doc" "v1" "temp" "final" "old" "d"
          { freshDeployWorld with moveFinalResp := .got ⟨200, "\x7b\"error\":1\x7d"⟩ () }).2
        = .error ("upload succeeded, but move failed: " ++
            HttpResponse.body ⟨200, "\x7b\"error\":1\x7d"⟩)
      ↔ bytesContains (HttpResponse.body ⟨200, "\x7b\"error\":1\x7d"⟩) "\"id\"" = false) :=
  C7_move_checked_by_id_substring "tok" "doc" "v1" "temp" "final" "old" "d"
    { freshDeployWorld with moveFinalResp := .got ⟨200, "\x7b\"error\":1\x7d"⟩ () }
    ⟨200, "\x7b\"files\": []\x7d"⟩ ⟨200, "\x7b\"id\":\"new-file-id\"\x7d"⟩
    ⟨200, "\x7b\"error\":1\x7d"⟩ "new-file-id"
    (by decide) (by decide) (by decide) (by decide) (by decide) rfl rfl rfl
    (by decide) rfl

/-- Whatever branch it takes, the non-skip continuation of `DeployPDF`
issues at least two requests (the search plus at least one more), so a
one-request trace can only come from the already-deployed branch. -/
lemma deployAfterSkip_two_le_length (accessToken fileName versionSafe
    tempFolderID folderID oldFolderID existingFileID existingFileDesc : String)
    (searchReq : HttpRequest) (w : DeployWorld) :
    2 ≤ (deployAfterSkip accessToken fileName versionSafe tempFolderID folderID
      oldFolderID existingFileID existingFileDesc searchReq w).1.length := by
  by_cases hA : existingFileID ≠ "" ∧ oldFolderID ≠ ""
  · cases hr : w.renameResp with
    | transportErr e =>
      simp [deployAfterSkip, deployArchivePhase, hA, hr]
    | got r u =>
      cases ha : w.archiveMoveResp with
      | transportErr e =>
        simp [deployAfterSkip, deployArchivePhase, hA, hr, ha]
      | got r2 u2 =>
        simp [deployAfterSkip, deployArchivePhase, deployUploadPhase, hA, hr, ha]
        try omega
  · by_cases hB : existingFileID ≠ ""
    · have hold : oldFolderID = "" := by tauto
      cases hd : w.deleteResp with
      | transportErr e =>
        simp [deployAfterSkip, deployDeletePhase, hB, hd, hold]
      | got r u =>
        by_cases hst : r.status ≠ 204 ∧ r.status ≠ 200
        · simp [deployAfterSkip, deployDeletePhase, hB, hd, hold, hst]
        · simp [deployAfterSkip, deployDeletePhase, deployUploadPhase, hB,
            hd, hold, hst]
          try omega
    · simp [deployAfterSkip, deployUploadPhase, hA, hB]
      try omega

/-- C8: in the archive branch, the rename PATCH carries the body
`{"name": "<fileName>-<existingDescription>.pdf"}`, with `unknown`
substituted when the existing description is empty or the literal string
`null`. -/
theorem C8_archive_rename_name
    (accessToken fileName versionSafe tempFolderID folderID oldFolderID
      sopDir : String)
    (w : DeployWorld) (sresp : HttpResponse) (f : DriveFile)
    (rest : List DriveFile)
    (h1 : fileName ≠ "") (h2 : accessToken ≠ "") (h3 : tempFolderID ≠ "")
    (h4 : folderID ≠ "") (h5 : versionSafe ≠ "") (hfe : w.fileExists = true)
    (hs : w.searchResp = .got sresp (.ok ⟨f :: rest⟩))
    (hid : f.id ≠ "") (hdesc : f.description ≠ versionSafe)
    (hold : oldFolderID ≠ "") :
    (DeployPDF accessToken fileName versionSafe tempFolderID folderID
        oldFolderID sopDir w).1[1]?
      = some
        { method := "PATCH"
          url := driveFileURL f.id
          authorization := some ("Bearer " ++ accessToken)
          contentType := some "application/json"
          body := some ("\x7b\"name\": \"" ++
            ((if f.description = "" ∨ f.description = "null" then
                fileName ++ "-unknown"
              else fileName ++ "-" ++ f.description) ++ ".pdf") ++ "\"\x7d") } := by
  cases hr : w.renameResp with
  | transportErr e =>
    simp [DeployPDF, deployAfterSkip, deployArchivePhase, renameRequest,
      renameBody, archivedName, h1, h2, h3, h4, h5, hfe, hs, hid, hdesc, hold, hr]
  | got r u =>
    cases ha : w.archiveMoveResp with
    | transportErr e =>
      simp [DeployPDF, deployAfterSkip, deployArchivePhase, renameRequest,
        renameBody, archivedName, h1, h2, h3, h4, h5, hfe, hs, hid, hdesc,
        hold, hr, ha]
    | got r2 u2 =>
      simp [DeployPDF, deployAfterSkip, deployArchivePhase, deployUploadPhase,
        renameRequest, renameBody, archivedName, h1, h2, h3, h4, h5, hfe, hs,
        hid, hdesc, hold, hr, ha]

/-- Witness for C8: an existing file described `v0`, deployed version `v1`,
archive folder set; the rename body is `{"name": "mydoc-v0.pdf"}`. -/
theorem C8_archive_rename_name_witness :
    (DeployPDF "tok" "mydoc" "v1" "temp" "final" "arch" "d"
        { freshDeployWorld with
            searchResp := .got ⟨200, ""⟩
              (.ok ⟨[⟨"old1", "mydoc.pdf", "v0"⟩]⟩) }).1[1]?
      = some
        { method := "PATCH"
          url := driveFileURL (DriveFile.id ⟨"old1", "mydoc.pdf", "v0"⟩)
          authorization := some ("Bearer " ++ "tok")
          contentType := some "application/json"
          body := some ("\x7b\"name\": \"" ++
            ((if DriveFile.description ⟨"old1", "mydoc.pdf", "v0"⟩ = "" ∨
                DriveFile.description ⟨"old1", "mydoc.pdf", "v0"⟩ = "null" then
                "mydoc" ++ "-unknown"
              else "mydoc" ++ "-" ++
                DriveFile.description ⟨"old1", "mydoc.pdf", "v0"⟩) ++ ".pdf") ++
            "\"\x7d") } :=
  C8_archive_rename_name "tok" "mydoc" "v1" "temp" "final" "arch" "d"
    { freshDeployWorld with
        searchResp := .got ⟨200, ""⟩ (.ok ⟨[⟨"old1", "mydoc.pdf", "v0"⟩]⟩) }
    ⟨200, ""⟩ ⟨"old1", "mydoc.pdf", "v0"⟩ []
    (by decide) (by decide) (by decide) (by decide) (by decide) rfl rfl
    (by decide) (by decide) (by decide)

/-- A deploy environment whose search result's first entry has an empty id
but a description matching the deployed version label. -/
def emptyIdMatchWorld : DeployWorld :=
  { freshDeployWorld with
      searchResp := .got ⟨200, ""⟩ (.ok ⟨[⟨"", "doc.pdf", "v1"⟩]⟩) }

/-- C5 counterexample: on a response whose first entry has an empty id and a
matching description, `CheckRemoteVersionExists` returns true, yet
`DeployPDF` does not take its one-request already-deployed branch — it goes
on to issue four requests. -/
theorem C5_counterexample_empty_id_divergence :
    (CheckRemoteVersionExists "tok" "doc" "final" "v1"
        (.got ⟨200, ""⟩ (.ok ⟨[⟨"", "doc.pdf", "v1"⟩]⟩))).2 = .ok true ∧
    (DeployPDF "tok" "doc" "v1" "temp" "final" "old" "d"
        emptyIdMatchWorld).1.length = 4 ∧
    (DeployPDF "tok" "doc" "v1" "temp" "final" "old" "d"
        emptyIdMatchWorld).2 = .ok () :=
  ⟨rfl, rfl, rfl⟩

/-- C5 amended: for responses whose decoded files list is empty or whose
first entry has a non-empty id, `DeployPDF` takes its terminal-success
already-deployed branch (exactly the one search request, result nil) iff
`CheckRemoteVersionExists` on the same decoded response returns true; the
equivalence does not extend to a first entry with an empty id and matching
description, where the two sides disagree. -/
theorem C5_amended_skip_equiv_nonempty_id
    (accessToken fileName versionSafe tempFolderID folderID oldFolderID
      sopDir : String)
    (w : DeployWorld) (sresp : HttpResponse) (files : List DriveFile)
    (h1 : fileName ≠ "") (h2 : accessToken ≠ "") (h3 : tempFolderID ≠ "")
    (h4 : folderID ≠ "") (h5 : versionSafe ≠ "") (hfe : w.fileExists = true)
    (hs : w.searchResp = .got sresp (.ok ⟨files⟩))
    (hid : files = [] ∨ (files.headD default).id ≠ "") :
    ((DeployPDF accessToken fileName versionSafe tempFolderID folderID
          oldFolderID sopDir w).1
        = [searchRequest accessToken folderID (fileName ++ ".pdf")] ∧
      (DeployPDF accessToken fileName versionSafe tempFolderID folderID
          oldFolderID sopDir w).2 = .ok ())
    ↔ (CheckRemoteVersionExists accessToken fileName folderID versionSafe
        (.got sresp (.ok ⟨files⟩))).2 = .ok true := by
  cases files with
  | nil =>
    have hred : DeployPDF accessToken fileName versionSafe tempFolderID folderID
        oldFolderID sopDir w
        = deployAfterSkip accessToken fileName versionSafe tempFolderID folderID
            oldFolderID "" ""
            (searchRequest accessToken folderID (fileName ++ ".pdf")) w := by
      simp [DeployPDF, h1, h2, h3, h4, h5, hfe, hs]
    have hCheck : (CheckRemoteVersionExists accessToken fileName folderID
        versionSafe (.got sresp (.ok ⟨[]⟩))).2 = .ok false := by
      simp [CheckRemoteVersionExists, h1, h2, h4, h5]
    rw [hred, hCheck]
    constructor
    · rintro ⟨hTr, -⟩
      exfalso
      have hl := congrArg List.length hTr
      have h2l := deployAfterSkip_two_le_length accessToken fileName versionSafe
        tempFolderID folderID oldFolderID "" ""
        (searchRequest accessToken folderID (fileName ++ ".pdf")) w
      simp at hl
      omega
    · intro hC
      simp at hC
  | cons f rest =>
    have hf : f.id ≠ "" := by simpa using hid
    by_cases hd : f.description = versionSafe
    · have hred : DeployPDF accessToken fileName versionSafe tempFolderID
          folderID oldFolderID sopDir w
          = ([searchRequest accessToken folderID (fileName ++ ".pdf")], .ok ()) := by
        simp [DeployPDF, h1, h2, h3, h4, h5, hfe, hs, hf, hd]
      rw [hred]
      simp [CheckRemoteVersionExists, if_neg h2, h1, h4, h5, hd]
    · have hred : DeployPDF accessToken fileName versionSafe tempFolderID
          folderID oldFolderID sopDir w
          = deployAfterSkip accessToken fileName versionSafe tempFolderID
              folderID oldFolderID f.id f.description
              (searchRequest accessToken folderID (fileName ++ ".pdf")) w := by
        simp [DeployPDF, h1, h2, h3, h4, h5, hfe, hs, hd]
      have hCheck : (CheckRemoteVersionExists accessToken fileName folderID
          versionSafe (.got sresp (.ok ⟨f :: rest⟩))).2 = .ok false := by
        simp [CheckRemoteVersionExists, h1, h2, h4, h5, hd]
      rw [hred, hCheck]
      constructor
      · rintro ⟨hTr, -⟩
        exfalso
        have hl := congrArg List.length hTr
        have h2l := deployAfterSkip_two_le_length accessToken fileName
          versionSafe tempFolderID folderID oldFolderID f.id f.description
          (searchRequest accessToken folderID (fileName ++ ".pdf")) w
        simp at hl
        omega
      · intro hC
        simp at hC

/-- Witness for the amended C5: a matching description with a non-empty id
takes the one-request branch, and the query predicate agrees. -/
theorem C5_amended_skip_equiv_nonempty_id_witness :
    ((DeployPDF "tok" "doc" "v1" "temp" "final" "old" "d"
          { freshDeployWorld with
              searchResp := .got ⟨200, ""⟩
                (.ok ⟨[⟨"old1", "doc.pdf", "v1"⟩]⟩) }).1
        = [searchRequest "tok" "final" ("doc" ++ ".pdf")] ∧
      (DeployPDF "tok" "doc" "v1" "temp" "final" "old" "d"
          { freshDeployWorld with
              searchResp := .got ⟨200, ""⟩
                (.ok ⟨[⟨"old1", "doc.pdf", "v1"⟩]⟩) }).2 = .ok ())
    ↔ (CheckRemoteVersionExists "tok" "doc" "final" "v1"
        (.got ⟨200, ""⟩ (.ok ⟨[⟨"old1", "doc.pdf", "v1"⟩]⟩))).2 = .ok true :=
  C5_amended_skip_equiv_nonempty_id "tok" "doc" "v1" "temp" "final" "old" "d"
    { freshDeployWorld with
        searchResp := .got ⟨200, ""⟩ (.ok ⟨[⟨"old1", "doc.pdf", "v1"⟩]⟩) }
    ⟨200, ""⟩ [⟨"old1", "doc.pdf", "v1"⟩]
    (by decide) (by decide) (by decide) (by decide) (by decide) rfl rfl
    (Or.inr (by decide))

/-- C10: in the archive branch the rename and move-to-archive PATCH
responses' statuses and bodies are never inspected — any two response pairs
yield identical runs, and the run proceeds to the upload POST (found at
index 3 of the trace) — while a transport-level error from either call
aborts with the corresponding wrapped error. -/
theorem C10_archive_patch_responses_uninspected
    (accessToken fileName versionSafe tempFolderID folderID oldFolderID
      sopDir : String)
    (w : DeployWorld) (sresp : HttpResponse) (f : DriveFile)
    (rest : List DriveFile)
    (r1 r2 r1' r2' : HttpResponse) (e e' : String)
    (h1 : fileName ≠ "") (h2 : accessToken ≠ "") (h3 : tempFolderID ≠ "")
    (h4 : folderID ≠ "") (h5 : versionSafe ≠ "") (hfe : w.fileExists = true)
    (hs : w.searchResp = .got sresp (.ok ⟨f :: rest⟩))
    (hid : f.id ≠ "") (hdesc : f.description ≠ versionSafe)
    (hold : oldFolderID ≠ "") :
    DeployPDF accessToken fileName versionSafe tempFolderID folderID oldFolderID
        sopDir { w with renameResp := .got r1 (), archiveMoveResp := .got r2 () }
      = DeployPDF accessToken fileName versionSafe tempFolderID folderID
          oldFolderID sopDir
          { w with renameResp := .got r1' (), archiveMoveResp := .got r2' () } ∧
    ((DeployPDF accessToken fileName versionSafe tempFolderID folderID
        oldFolderID sopDir
        { w with renameResp := .got r1 (), archiveMoveResp := .got r2 () }).1[3]?).map
        HttpRequest.method = some "POST" ∧
    (DeployPDF accessToken fileName versionSafe tempFolderID folderID oldFolderID
        sopDir { w with renameResp := .transportErr e }).2
      = .error ("failed to rename existing file: " ++ e) ∧
    (DeployPDF accessToken fileName versionSafe tempFolderID folderID oldFolderID
        sopDir
        { w with renameResp := .got r1 (), archiveMoveResp := .transportErr e' }).2
      = .error ("failed to move old file to archive: " ++ e') := by
  refine ⟨?_, ?_, ?_, ?_⟩ <;>
    simp [DeployPDF, deployAfterSkip, deployArchivePhase, deployUploadPhase,
      deployUploadRequest, h1, h2, h3, h4, h5, hfe, hs, hid, hdesc, hold]

/-- Witness for C10 at concrete archive-branch responses, one of them a 500. -/
theorem C10_archive_patch_responses_uninspected_witness :
    DeployPDF "tok" "doc" "v1" "temp" "final" "arch" "d"
        { { freshDeployWorld with
              searchResp := .got ⟨200, ""⟩ (.ok ⟨[⟨"old1", "doc.pdf", "v0"⟩]⟩) } with
            renameResp := .got ⟨500, "boom"⟩ (), archiveMoveResp := .got ⟨404, "gone"⟩ () }
      = DeployPDF "tok" "doc" "v1" "temp" "final" "arch" "d"
          { { freshDeployWorld with
                searchResp := .got ⟨200, ""⟩ (.ok ⟨[⟨"old1", "doc.pdf", "v0"⟩]⟩) } with
              renameResp := .got ⟨200, "ok"⟩ (), archiveMoveResp := .got ⟨200, "ok"⟩ () } ∧
    ((DeployPDF "tok" "doc" "v1" "temp" "final" "arch" "d"
        { { freshDeployWorld with
              searchResp := .got ⟨200, ""⟩ (.ok ⟨[⟨"old1", "doc.pdf", "v0"⟩]⟩) } with
            renameResp := .got ⟨500, "boom"⟩ (),
            archiveMoveResp := .got ⟨404, "gone"⟩ () }).1[3]?).map
        HttpRequest.method = some "POST" ∧
    (DeployPDF "tok" "doc" "v1" "temp" "final" "arch" "d"
        { { freshDeployWorld with
              searchResp := .got ⟨200, ""⟩ (.ok ⟨[⟨"old1", "doc.pdf", "v0"⟩]⟩) } with
            renameResp := .transportErr "conn reset" }).2
      = .error ("failed to rename existing file: " ++ "conn reset") ∧
    (DeployPDF "tok" "doc" "v1" "temp" "final" "arch" "d"
        { { freshDeployWorld with
              searchResp := .got ⟨200, ""⟩ (.ok ⟨[⟨"old1", "doc.pdf", "v0"⟩]⟩) } with
            renameResp := .got ⟨500, "boom"⟩ (),
            archiveMoveResp := .transportErr "timeout" }).2
      = .error ("failed to move old file to archive: " ++ "timeout") :=
  C10_archive_patch_responses_uninspected "tok" "doc" "v1" "temp" "final" "arch"
    "d" { freshDeployWorld with
        searchResp := .got ⟨200, ""⟩ (.ok ⟨[⟨"old1", "doc.pdf", "v0"⟩]⟩) }
    ⟨200, ""⟩ ⟨"old1", "doc.pdf", "v0"⟩ []
    ⟨500, "boom"⟩ ⟨404, "gone"⟩ ⟨200, "ok"⟩ ⟨200, "ok"⟩ "conn reset" "timeout"
    (by decide) (by decide) (by decide) (by decide) (by decide) rfl rfl
    (by decide) (by decide) (by decide)

end GDrive
